import Mathlib

/-!
Verification of the AI-IDS detection-and-decision pipeline.

Shallow embedding of the core modules:
* `AnomalyDetection` embeds `src/models/anomaly_detection.py`
  (`AnomalyDetector`: statistical / MAD / isolation-forest detectors,
  ensemble fusion, severity classification).
* `DeepLearning` embeds `src/models/deep_learning.py`
  (`DeepAttackClassifier`: signature-matching attack classification).
* `MultiAgent` embeds `src/agents/multi_agent_system.py`
  (five-stage agent pipeline and its orchestrator).

Numeric values are modelled as exact rationals (`ℚ`): Python floats are
idealized to real-number arithmetic.  The isolation-forest model itself is
an external scikit-learn black box; it is embedded as an opaque-by-choice
pair of functions supplied by the environment.  Timestamps and the textual
parts of labels that interpolate formatted floats are elided; everything
the claims depend on is kept.
-/

namespace AnomalyDetection

/-- The epsilon constant `1e-8` used throughout the source to guard
divisions. -/
def eps : ℚ := 1 / 100000000

/-- `np.clip(x, 0, 1)`. -/
def clip01 (x : ℚ) : ℚ := max 0 (min 1 x)

/-- The `baseline_stats` dictionary computed by
`fit_statistical_baseline` (the `min`/`max` entries are never read by the
detectors and are omitted). -/
structure BaselineStats where
  mean : List ℚ
  std : List ℚ
  median : List ℚ
  mad : List ℚ
deriving DecidableEq

/-- A trained scikit-learn `IsolationForest`, black box to the core:
`predict` returns ±1 labels, `score_samples` the raw (sign-flipped)
anomaly scores. -/
structure IsoForest where
  predict : List (List ℚ) → List Int
  score_samples : List (List ℚ) → List ℚ

/-- The `AnomalyDetector` object state: contamination ratio, optional
trained isolation forest, optional fitted statistical baseline
(`baseline_stats = {}` is modelled as `none`). -/
structure AnomalyDetector where
  contamination_ratio : ℚ
  isolation_forest : Option IsoForest
  baseline_stats : Option BaselineStats

/-- `AnomalyDetector.detect_isolation_forest`: untrained model yields
empty output; otherwise predictions plus negated `score_samples`. -/
def detect_isolation_forest (d : AnomalyDetector) (X : List (List ℚ)) :
    List Int × List ℚ :=
  match d.isolation_forest with
  | none => ([], [])
  | some f => (f.predict X, (f.score_samples X).map (fun s => -s))

/-- `np.max` over a 1-d array, with `0` as (unreachable) default for the
empty array. -/
def npMaxD (l : List ℚ) : ℚ :=
  match l with
  | [] => 0
  | h :: t => t.foldl max h

/-- `AnomalyDetector.detect_statistical`: without a fitted baseline the
result is empty; with one, each sample's score is the row maximum of
`abs((X - mean) / (std + 1e-8))`.  Shape mismatches (or a zero-feature
batch) raise inside the source's `try` block and fall to the
`return np.array([])` handler, hence the well-formedness guard. -/
def detect_statistical (d : AnomalyDetector) (X : List (List ℚ)) : List ℚ :=
  match d.baseline_stats with
  | none => []
  | some b =>
    if b.std.length = b.mean.length ∧ (∀ row ∈ X, row.length = b.mean.length) ∧
        (X = [] ∨ 0 < b.mean.length) then
      X.map (fun row =>
        npMaxD (List.zipWith (fun p x => |(x - p.1) / (p.2 + eps)|)
          (b.mean.zip b.std) row))
    else []

/-- `AnomalyDetector.detect_mad`: like `detect_statistical` but scoring
`np.abs(X - median) / (mad + 1e-8)` per feature. -/
def detect_mad (d : AnomalyDetector) (X : List (List ℚ)) : List ℚ :=
  match d.baseline_stats with
  | none => []
  | some b =>
    if b.mad.length = b.median.length ∧ (∀ row ∈ X, row.length = b.median.length) ∧
        (X = [] ∨ 0 < b.median.length) then
      X.map (fun row =>
        npMaxD (List.zipWith (fun p x => |x - p.1| / (p.2 + eps))
          (b.median.zip b.mad) row))
    else []

/-- `np.max` over a 1-d array; `none` models the `ValueError` numpy
raises on an empty array. -/
def npMax? (l : List ℚ) : Option ℚ :=
  match l with
  | [] => none
  | h :: t => some (t.foldl max h)

/-- `np.clip(scores / np.max(scores + 1e-8), 0, 1)` — the per-method
normalization inside `ensemble_detection`; `none` when `np.max` raises
on an empty score array. -/
def normalize? (l : List ℚ) : Option (List ℚ) :=
  (npMax? (l.map (fun s => s + eps))).map
    (fun m => l.map (fun s => clip01 (s / m)))

/-- The default weight map of `ensemble_detection`
(`weights.get(method, 0)`). -/
def defaultWeight (method : String) : ℚ :=
  if method = "isolation_forest" then 2/5
  else if method = "statistical" then 3/10
  else if method = "mad" then 3/10
  else 0

/-- One iteration of the `for method, scores in method_scores.items()`
loop: accumulate `weight * scores` into the running ensemble and the
weight into `total_weight`. -/
def combineStep (p : List ℚ × ℚ) (m : String × List ℚ) : List ℚ × ℚ :=
  (List.zipWith (fun e s => e + defaultWeight m.1 * s) p.1 m.2,
   p.2 + defaultWeight m.1)

/-- The combination loop of `ensemble_detection`: start from
`np.zeros(len(X))`, fold the weighted method scores, and divide by
`total_weight` when it is positive. -/
def ensembleCombine (n : ℕ) (ms : List (String × List ℚ)) : List ℚ :=
  let r := ms.foldl combineStep (List.replicate n 0, 0)
  if 0 < r.2 then r.1.map (fun e => e / r.2) else r.1

/-- The `statistical` entry of `method_scores`, present iff
`stat_scores.size > 0` (when present the normalization cannot fail, so
the `getD []` default is unreachable). -/
def statPart (d : AnomalyDetector) (X : List (List ℚ)) : List (String × List ℚ) :=
  let stat := detect_statistical d X
  if 0 < stat.length then [("statistical", (normalize? stat).getD [])] else []

/-- The `mad` entry of `method_scores`, present iff
`mad_scores.size > 0`. -/
def madPart (d : AnomalyDetector) (X : List (List ℚ)) : List (String × List ℚ) :=
  let madS := detect_mad d X
  if 0 < madS.length then [("mad", (normalize? madS).getD [])] else []

/-- The `isolation_forest` entry of `method_scores`.  With a trained
model the source normalizes the (possibly empty) score array without a
size guard; an empty array makes `np.max` raise out of
`ensemble_detection`, modelled by `none`. -/
def isoPart? (d : AnomalyDetector) (X : List (List ℚ)) :
    Option (List (String × List ℚ)) :=
  match d.isolation_forest with
  | none => some []
  | some _ =>
    (normalize? (detect_isolation_forest d X).2).map
      (fun ns => [("isolation_forest", ns)])

/-- `AnomalyDetector.ensemble_detection`: assemble `method_scores` in
source order (isolation forest, statistical, MAD) and combine;
`none` models the uncaught `ValueError` described at `isoPart?`. -/
def ensemble_detection (d : AnomalyDetector) (X : List (List ℚ)) :
    Option (List ℚ × List (String × List ℚ)) :=
  (isoPart? d X).map (fun ms1 =>
    let ms := ms1 ++ statPart d X ++ madPart d X
    (ensembleCombine X.length ms, ms))

/-- `AnomalyDetector.classify_anomaly`: severity by two ordered `≥`
comparisons.  The formatted score interpolated into the label text is
elided. -/
def classify_anomaly (anomaly_score critical_threshold warning_threshold : ℚ) :
    String × String :=
  if anomaly_score ≥ critical_threshold then
    ("CRITICAL", "Critical anomaly detected")
  else if anomaly_score ≥ warning_threshold then
    ("WARNING", "Suspicious behavior detected")
  else
    ("NORMAL", "Normal behavior")

/-- Rank of a severity string in the NORMAL < WARNING < CRITICAL
order. -/
def sevRank (severity : String) : ℕ :=
  if severity = "CRITICAL" then 2 else if severity = "WARNING" then 1 else 0

/-- `np.median` of a 1-d array: sort, take the middle element (odd
length) or the mean of the two middle elements (even length). -/
def npMedian (l : List ℚ) : ℚ :=
  let s := List.insertionSort (fun a b => a ≤ b) l
  let n := s.length
  if n = 0 then 0
  else if n % 2 = 1 then s.getD (n / 2) 0
  else (s.getD (n / 2 - 1) 0 + s.getD (n / 2) 0) / 2

/-- Column `j` of the batch (numpy axis-0 view). -/
def colVals (X : List (List ℚ)) (j : ℕ) : List ℚ :=
  X.map (fun r => r.getD j 0)

/-- `np.mean` of a 1-d array (the empty case is unreachable for the
fitted baselines considered). -/
def npMeanL (l : List ℚ) : ℚ := l.sum / (l.length : ℚ)

/-- Number of feature columns of a batch. -/
def numFeatures (X : List (List ℚ)) : ℕ := (X.headD []).length

/-- `np.mean(X, axis=0)` as computed by `fit_statistical_baseline`. -/
def fitMean (X : List (List ℚ)) : List ℚ :=
  (List.range (numFeatures X)).map (fun j => npMeanL (colVals X j))

/-- The per-column population variance; `np.std(X, axis=0)` is its
(irrational in general) square root, so the fitted `std` is
characterized by `IsFittedBaseline` instead of computed here. -/
def fitVar (X : List (List ℚ)) : List ℚ :=
  (List.range (numFeatures X)).map (fun j =>
    npMeanL ((colVals X j).map (fun x => (x - npMeanL (colVals X j)) ^ 2)))

/-- `np.median(X, axis=0)`. -/
def fitMedian (X : List (List ℚ)) : List ℚ :=
  (List.range (numFeatures X)).map (fun j => npMedian (colVals X j))

/-- `_median_absolute_deviation`: per column, the median of
`np.abs(X - median)`. -/
def fitMad (X : List (List ℚ)) : List ℚ :=
  (List.range (numFeatures X)).map (fun j =>
    npMedian ((colVals X j).map (fun x => |x - npMedian (colVals X j)|)))

/-- `b` is the baseline `fit_statistical_baseline` computes from
`train`: mean/median/MAD are the exact column statistics and `std` is
the entrywise nonnegative square root of the column variances. -/
def IsFittedBaseline (train : List (List ℚ)) (b : BaselineStats) : Prop :=
  b.mean = fitMean train ∧ b.median = fitMedian train ∧ b.mad = fitMad train ∧
  b.std.length = (fitVar train).length ∧
  ∀ j, j < b.std.length →
    0 ≤ b.std.getD j 0 ∧ (b.std.getD j 0) ^ 2 = (fitVar train).getD j 0

instance (train : List (List ℚ)) (b : BaselineStats) :
    Decidable (IsFittedBaseline train b) := by
  unfold IsFittedBaseline; infer_instance

end AnomalyDetection

namespace DeepLearning

/-- Python `feature_name in features` / `features[feature_name]` on the
feature dictionary, as an association-list lookup. -/
def getFeature (features : List (String × ℚ)) (name : String) : Option ℚ :=
  (features.find? (fun p => p.1 == name)).map (fun p => p.2)

/-- The fixed `attack_signatures` table of `DeepAttackClassifier`, in
source (insertion) order. -/
def attack_signatures : List (String × List (String × String)) :=
  [("Port Scan", [("unique_dst_ports", "high"), ("packet_rate", "high"),
      ("syn_count", "high")]),
   ("Brute Force", [("failed_login_count", "high"), ("warning_ratio", "high")]),
   ("SQL Injection", [("sql_injection_count", "high"),
      ("suspicious_command_count", "high")]),
   ("DoS Attack", [("packet_rate", "very_high"), ("packet_count", "very_high")]),
   ("Data Exfiltration", [("avg_payload_size", "high"), ("unique_dst_ips", "high")]),
   ("Malware Traffic", [("port_scan_count", "high"),
      ("privilege_escalation_count", "high")]),
   ("Privilege Escalation", [("privilege_escalation_count", "high"),
      ("access_violation_count", "high")]),
   ("Normal Traffic", [("critical_ratio", "low"), ("warning_ratio", "low")])]

/-- One iteration of the `for feature_name, threshold_level in
signatures.items()` loop of `_calculate_match_score`, mirrored branch
for branch (absent features are skipped by the `continue`). -/
def matchStep (features : List (String × ℚ)) (acc : ℚ × ℕ)
    (sig : String × String) : ℚ × ℕ :=
  match getFeature features sig.1 with
  | none => acc
  | some v =>
    if sig.2 = "high" then (if v > 50 then (acc.1 + 20, acc.2 + 1) else acc)
    else if sig.2 = "very_high" then
      (if v > 80 then (acc.1 + 30, acc.2 + 1) else acc)
    else if sig.2 = "low" then (if v < 20 then (acc.1 + 20, acc.2 + 1) else acc)
    else acc

/-- The `score`/`matches` accumulation loop of
`_calculate_match_score`. -/
def matchScoreParts (features : List (String × ℚ))
    (signatures : List (String × String)) : ℚ × ℕ :=
  signatures.foldl (matchStep features) (0, 0)

/-- `DeepAttackClassifier._calculate_match_score`: accumulated points,
multiplied by the `1 + matches * 0.1` bonus when at least one signature
matched. -/
def calculate_match_score (features : List (String × ℚ))
    (signatures : List (String × String)) : ℚ :=
  let p := matchScoreParts features signatures
  if p.2 > 0 then p.1 * (1 + (p.2 : ℚ) * (1 / 10)) else p.1

/-- Per-signature contribution (points, matched-count) as the spec's
words describe it: +20 for a `high` feature above 50, +30 for a
`very_high` feature above 80, +20 for a `low` feature below 20; absent
features contribute nothing. -/
def sigContribution (features : List (String × ℚ)) (sig : String × String) :
    ℚ × ℕ :=
  match getFeature features sig.1 with
  | none => (0, 0)
  | some v =>
    if sig.2 = "high" then (if v > 50 then (20, 1) else (0, 0))
    else if sig.2 = "very_high" then (if v > 80 then (30, 1) else (0, 0))
    else if sig.2 = "low" then (if v < 20 then (20, 1) else (0, 0))
    else (0, 0)

/-- Modelled from the spec's words (§4.5), for comparison with
`calculate_match_score`: the SUM of the per-signature contributions,
multiplied by `1 + 0.1 × matched_signature_count` when at least one
matched. -/
def specMatchScore (features : List (String × ℚ))
    (signatures : List (String × String)) : ℚ :=
  let pts := (signatures.map (fun sig => (sigContribution features sig).1)).sum
  let matched := (signatures.map (fun sig => (sigContribution features sig).2)).sum
  if 0 < matched then pts * (1 + (matched : ℚ) * (1 / 10)) else pts

/-- One iteration of the `for attack_name, signatures in
self.attack_signatures.items()` loop of `classify`: record the score in
`details` and keep the strictly-greatest score (first wins on ties). -/
def bestStep (features : List (String × ℚ))
    (acc : Option String × ℚ × List (String × ℚ))
    (a : String × List (String × String)) :
    Option String × ℚ × List (String × ℚ) :=
  let s := calculate_match_score features a.2
  let details := acc.2.2 ++ [(a.1, s)]
  if s > acc.2.1 then (some a.1, s, details) else (acc.1, acc.2.1, details)

/-- The best-match scan of `DeepAttackClassifier.classify`. -/
def bestMatchOf (features : List (String × ℚ)) :
    Option String × ℚ × List (String × ℚ) :=
  attack_signatures.foldl (bestStep features) (none, 0, [])

/-- `DeepAttackClassifier.classify`: confidence is the best score
normalized by 100 and capped at 1; below the confidence threshold the
label is forced to `"Unknown Attack"`.  The label is an `Option`
because the source can return the initial `best_match = None`. -/
def classify (features : List (String × ℚ)) (confidence_threshold : ℚ) :
    Option String × ℚ × List (String × ℚ) :=
  let r := bestMatchOf features
  let confidence := min 1 (r.2.1 / 100)
  if confidence < confidence_threshold then
    (some "Unknown Attack", confidence, r.2.2)
  else (r.1, confidence, r.2.2)

end DeepLearning

namespace MultiAgent

/-- A network packet as the agents read it: only the `protocol` and
`packet_size` keys are ever accessed (with defaults applied by the
caller). -/
structure Packet where
  protocol : String
  packet_size : ℚ
deriving DecidableEq

/-- One entry of the `detections` list built by
`DetectionAgent.process_data`: the precomputed-score branch records
score/index/severity, the statistical fallback records
score/packet/reason. -/
inductive Detection where
  | scored (anomaly_score : ℚ) (index : ℕ) (severity : String)
  | stat (anomaly_score : ℚ) (packetSize : ℚ) (reason : String)
deriving DecidableEq

/-- `detection.get('anomaly_score', 0.5)` — both variants carry the
key, so the default is unreachable. -/
def Detection.score : Detection → ℚ
  | .scored s _ _ => s
  | .stat s _ _ => s

/-- One entry of the `classifications` list of
`ClassificationAgent.classify_attacks`. -/
structure Classification where
  detection : Detection
  attack_type : String
  confidence : ℚ
  indicators : List String
deriving DecidableEq

/-- One entry of the `explanations` list of
`ExplanationAgent.generate_explanations` (the interpolated
`explanation` prose, which embeds formatted floats, is elided). -/
structure Explanation where
  severity : String
  attack_type : String
  confidence : ℚ
  recommendations : List String
deriving DecidableEq

/-- One entry of the `actions` list of
`ResponseAgent.generate_response` (timestamp elided). -/
structure ResponseAction where
  severity : String
  alert_type : String
  confidence : ℚ
  recommended_actions : List String
  automated_actions : List String
deriving DecidableEq

/-- One entry of the `alerts` list of
`ResponseAgent.generate_response`. -/
structure Alert where
  alert_type : String
  severity : String
  confidence : ℚ
deriving DecidableEq

/-- The response dictionary returned by
`ResponseAgent.generate_response` (timestamp elided). -/
structure ResponseResult where
  total_threats : ℕ
  actions : List ResponseAction
  alerts : List Alert
  status : String
deriving DecidableEq

/-- Message contents, one constructor per message type flowing through
the pipeline (the monitoring payload keeps the counts of its
summary). -/
inductive Payload where
  | rawData (packetCount eventCount : ℕ)
  | anomaliesDetected (detections : List Detection) (detection_count : ℕ)
  | classificationsReady (classifications : List Classification)
  | explanationsGenerated (explanations : List Explanation)
deriving DecidableEq

/-- An `AgentMessage` (timestamp elided). -/
structure Message where
  sender : String
  recipient : String
  message_type : String
  payload : Payload
deriving DecidableEq

/-- The dictionary returned by `MultiAgentSystem.process_threat`;
optional fields are the keys present only in one of the two result
shapes. -/
structure PipelineResult where
  status : String
  threat_detected : Bool
  message : Option String
  pipeline_messages : Option ℕ
  agents_involved : Option ℕ
  response : Option ResponseResult
deriving DecidableEq

/-- The orchestrator state observable across runs: its
`message_queue`. -/
structure MAS where
  message_queue : List Message
deriving DecidableEq

/-- The precomputed-scores branch of `DetectionAgent.process_data`:
emit a detection for every enumerated score strictly above the
hard-coded `anomaly_threshold = 0.7`, severity `CRITICAL` iff strictly
above `0.9`, else `WARNING`. -/
def scoredDetections (scores : List ℚ) : List Detection :=
  scores.enum.filterMap (fun p =>
    if p.2 > 7/10 then
      some (.scored p.2 p.1 (if p.2 > 9/10 then "CRITICAL" else "WARNING"))
    else none)

/-- The statistical fallback branch of `DetectionAgent.process_data`
(no precomputed scores): 3-sigma rule on packet sizes.  `pstd` stands
for `np.std(packet_sizes)` — the square root of the size variance,
supplied as a parameter because it is irrational in general. -/
def fallbackDetections (packets : List Packet) (pstd : ℚ) : List Detection :=
  match packets with
  | [] => []
  | _ =>
    let sizes := packets.map (fun p => p.packet_size)
    let mean := AnomalyDetection.npMeanL sizes
    packets.filterMap (fun p =>
      let z := |(p.packet_size - mean) / (pstd + AnomalyDetection.eps)|
      if z > 3 then
        some (.stat (min 1 (z / 5)) p.packet_size "Unusual packet size")
      else none)

/-- The `detections` list `DetectionAgent.process_data` builds. -/
def computeDetections (packets : List Packet)
    (anomaly_scores : Option (List ℚ)) (pstd : ℚ) : List Detection :=
  match anomaly_scores with
  | some scores => scoredDetections scores
  | none => fallbackDetections packets pstd

/-- `ClassificationAgent._classify_single`: heuristic attack type from
the anomaly score. -/
def classify_single (d : Detection) : String × ℚ × List String :=
  let score := d.score
  if score > 95/100 then
    ("DoS Attack", min 1 (score * (11/10)), ["high_packet_rate", "packet_flood"])
  else if score > 8/10 then
    ("Port Scan", score, ["multiple_ports", "syn_flood"])
  else
    ("Anomalous Traffic", score, ["unusual_pattern"])

/-- `ClassificationAgent.classify_attacks` (the classification list it
puts in its message). -/
def classify_attacks (dets : List Detection) : List Classification :=
  dets.map (fun d =>
    let a := classify_single d
    ⟨d, a.1, a.2.1, a.2.2⟩)

/-- `ExplanationAgent._get_recommendations`: canned per-attack-type
advice with a generic default. -/
def explanation_recommendations (attack_type : String) : List String :=
  if attack_type = "Port Scan" then
    ["Review firewall rules", "Monitor source IP for further activity",
     "Consider implementing port knocking"]
  else if attack_type = "Brute Force" then
    ["Implement rate limiting", "Enforce password policies",
     "Enable MFA on affected accounts"]
  else if attack_type = "SQL Injection" then
    ["Review application code for input validation",
     "Update database access controls", "Implement parameterized queries"]
  else if attack_type = "DoS Attack" then
    ["Activate DDoS mitigation", "Block source IP addresses",
     "Scale infrastructure capacity"]
  else if attack_type = "Data Exfiltration" then
    ["Block source IP immediately", "Review data access logs",
     "Implement data loss prevention"]
  else
    ["Investigate further", "Collect forensic evidence",
     "Update security policies"]

/-- `ExplanationAgent._generate_explanation`: severity by strict
comparisons on the confidence. -/
def generate_explanation (c : Classification) : Explanation :=
  let severity :=
    if c.confidence > 9/10 then "CRITICAL"
    else if c.confidence > 7/10 then "WARNING"
    else "INFO"
  ⟨severity, c.attack_type, c.confidence,
   explanation_recommendations c.attack_type⟩

/-- `ResponseAgent._get_automated_actions`. -/
def automated_actions (severity : String) : List String :=
  if severity = "CRITICAL" then
    ["Log all activity", "Capture network traffic", "Alert security team",
     "Prepare isolation commands"]
  else if severity = "WARNING" then
    ["Log activity", "Monitor source IP", "Alert security team"]
  else
    ["Log activity", "Monitor"]

/-- `ResponseAgent.generate_response`. -/
def generate_response (exps : List Explanation) : ResponseResult :=
  ⟨exps.length,
   exps.map (fun e =>
     ⟨e.severity, e.attack_type, e.confidence, e.recommendations,
      automated_actions e.severity⟩),
   exps.map (fun e => ⟨e.attack_type, e.severity, e.confidence⟩),
   "READY_FOR_EXECUTION"⟩

/-- `MultiAgentSystem.process_threat`: the five-stage run.  Messages
are appended to the orchestrator's `message_queue` (which the source
never clears).  When the detection list is empty the run short-circuits
with the bare no-threat dictionary; otherwise the remaining stages run
and the result reports `len(self.message_queue)` and the five agents
involved.  Only the count of log events is used by the model. -/
def process_threat (mas : MAS) (packets : List Packet) (eventCount : ℕ)
    (anomaly_scores : Option (List ℚ)) (pstd : ℚ) : PipelineResult × MAS :=
  let msg1 : Message :=
    ⟨"monitor-agent", "detect-agent", "raw_data",
     .rawData packets.length eventCount⟩
  let dets := computeDetections packets anomaly_scores pstd
  let msg2 : Message :=
    ⟨"detect-agent", "classify-agent", "anomalies_detected",
     .anomaliesDetected dets dets.length⟩
  let q2 := mas.message_queue ++ [msg1, msg2]
  if dets = [] then
    (⟨"NORMAL", false, some "No threats detected", none, none, none⟩, ⟨q2⟩)
  else
    let cls := classify_attacks dets
    let msg3 : Message :=
      ⟨"classify-agent", "explain-agent", "classifications_ready",
       .classificationsReady cls⟩
    let exps := cls.map generate_explanation
    let msg4 : Message :=
      ⟨"explain-agent", "response-agent", "explanations_generated",
       .explanationsGenerated exps⟩
    let q4 := q2 ++ [msg3, msg4]
    (⟨"THREATS_DETECTED", true, none, some q4.length, some 5,
      some (generate_response exps)⟩, ⟨q4⟩)

end MultiAgent

namespace AnomalyDetection

theorem clip01_nonneg (x : ℚ) : 0 ≤ clip01 x := le_max_left 0 _

theorem clip01_le_one (x : ℚ) : clip01 x ≤ 1 :=
  max_le (by norm_num) (min_le_left 1 x)

theorem normalize?_mem_unit {l ns : List ℚ} (h : normalize? l = some ns) :
    ∀ s ∈ ns, 0 ≤ s ∧ s ≤ 1 := by
  unfold normalize? at h
  cases hm : npMax? (l.map (fun s => s + eps)) with
  | none => rw [hm] at h; simp at h
  | some m =>
    rw [hm] at h
    simp only [Option.map_some', Option.some.injEq] at h
    subst h
    intro s hs
    obtain ⟨a, _, rfl⟩ := List.mem_map.1 hs
    exact ⟨clip01_nonneg _, clip01_le_one _⟩

theorem normalize?_getD_mem_unit (l : List ℚ) :
    ∀ s ∈ (normalize? l).getD [], 0 ≤ s ∧ s ≤ 1 := by
  cases h : normalize? l with
  | none => simp
  | some ns => simpa using normalize?_mem_unit h

theorem defaultWeight_nonneg (m : String) : 0 ≤ defaultWeight m := by
  unfold defaultWeight
  split_ifs <;> norm_num

theorem zipWith_step_bound (w t : ℚ) (hw : 0 ≤ w) :
    ∀ (a b : List ℚ), (∀ x ∈ a, 0 ≤ x ∧ x ≤ t) → (∀ y ∈ b, 0 ≤ y ∧ y ≤ 1) →
      ∀ z ∈ List.zipWith (fun e s => e + w * s) a b, 0 ≤ z ∧ z ≤ t + w := by
  intro a
  induction a with
  | nil => intro b _ _ z hz; simp at hz
  | cons x xs ih =>
    intro b ha hb z hz
    cases b with
    | nil => simp at hz
    | cons y ys =>
      simp only [List.zipWith_cons_cons, List.mem_cons] at hz
      rcases hz with rfl | hz
      · have hx := ha x (by simp)
        have hy := hb y (by simp)
        refine ⟨by nlinarith [hx.1, hy.1], ?_⟩
        have hwy : w * y ≤ w := mul_le_of_le_one_right hw hy.2
        linarith [hx.2]
      · exact ih ys (fun u hu => ha u (by simp [hu])) (fun u hu => hb u (by simp [hu])) z hz

theorem combineFold_bound :
    ∀ (ms : List (String × List ℚ)), (∀ p ∈ ms, ∀ s ∈ p.2, 0 ≤ s ∧ s ≤ 1) →
    ∀ (acc : List ℚ) (tw : ℚ), 0 ≤ tw → (∀ x ∈ acc, 0 ≤ x ∧ x ≤ tw) →
      0 ≤ (ms.foldl combineStep (acc, tw)).2 ∧
      ∀ x ∈ (ms.foldl combineStep (acc, tw)).1, 0 ≤ x ∧ x ≤ (ms.foldl combineStep (acc, tw)).2 := by
  intro ms
  induction ms with
  | nil => intro _ acc tw h1 h2; simpa using ⟨h1, h2⟩
  | cons m rest ih =>
    intro hms acc tw htw hacc
    simp only [List.foldl_cons]
    refine ih (fun p hp => hms p (by simp [hp])) _ _
      (add_nonneg htw (defaultWeight_nonneg m.1)) ?_
    intro x hx
    exact zipWith_step_bound (defaultWeight m.1) tw (defaultWeight_nonneg m.1)
      acc m.2 hacc (hms m (by simp)) x hx

theorem ensembleCombine_mem_unit (n : ℕ) (ms : List (String × List ℚ))
    (hms : ∀ p ∈ ms, ∀ s ∈ p.2, 0 ≤ s ∧ s ≤ 1) :
    ∀ x ∈ ensembleCombine n ms, 0 ≤ x ∧ x ≤ 1 := by
  have h := combineFold_bound ms hms (List.replicate n 0) 0 le_rfl
    (by intro x hx; rw [List.eq_of_mem_replicate hx]; exact ⟨le_rfl, le_rfl⟩)
  intro x hx
  simp only [ensembleCombine] at hx
  split at hx
  · next hpos =>
    obtain ⟨a, ha, rfl⟩ := List.mem_map.1 hx
    have hb := h.2 a ha
    exact ⟨div_nonneg hb.1 (le_of_lt hpos), (div_le_one hpos).2 hb.2⟩
  · next hneg =>
    have hb := h.2 x hx
    have hz : (ms.foldl combineStep (List.replicate n 0, 0)).2 = 0 :=
      le_antisymm (not_lt.1 hneg) h.1
    refine ⟨hb.1, ?_⟩
    have hle := hb.2
    rw [hz] at hle
    linarith

theorem ensembleCombine_nil (n : ℕ) :
    ensembleCombine n [] = List.replicate n 0 := by
  simp [ensembleCombine]

theorem statPart_bounded (d : AnomalyDetector) (X : List (List ℚ)) :
    ∀ p ∈ statPart d X, ∀ s ∈ p.2, 0 ≤ s ∧ s ≤ 1 := by
  intro p hp
  simp only [statPart] at hp
  split at hp
  · simp only [List.mem_singleton] at hp
    subst hp
    exact normalize?_getD_mem_unit _
  · simp at hp

theorem madPart_bounded (d : AnomalyDetector) (X : List (List ℚ)) :
    ∀ p ∈ madPart d X, ∀ s ∈ p.2, 0 ≤ s ∧ s ≤ 1 := by
  intro p hp
  simp only [madPart] at hp
  split at hp
  · simp only [List.mem_singleton] at hp
    subst hp
    exact normalize?_getD_mem_unit _
  · simp at hp

theorem isoPart?_bounded (d : AnomalyDetector) (X : List (List ℚ))
    (ms1 : List (String × List ℚ)) (h : isoPart? d X = some ms1) :
    ∀ p ∈ ms1, ∀ s ∈ p.2, 0 ≤ s ∧ s ≤ 1 := by
  unfold isoPart? at h
  cases hf : d.isolation_forest with
  | none =>
    rw [hf] at h
    simp only [Option.some.injEq] at h
    subst h
    simp
  | some f =>
    rw [hf] at h
    rw [Option.map_eq_some'] at h
    obtain ⟨ns, hns, rfl⟩ := h
    intro p hp
    simp only [List.mem_singleton] at hp
    subst hp
    exact normalize?_mem_unit hns

/-- C1: for every input batch and every subset of trained detectors
(including none, and including the empty batch), whenever
`ensemble_detection` returns, every per-sample ensemble score lies in
[0,1]; and when no detector produced any output (`method_scores`
empty), the ensemble score is the all-zero vector `np.zeros(len(X))`. -/
theorem C1_ensemble_scores_unit_interval (d : AnomalyDetector) (X : List (List ℚ))
    (es : List ℚ) (ms : List (String × List ℚ))
    (h : ensemble_detection d X = some (es, ms)) :
    (∀ s ∈ es, 0 ≤ s ∧ s ≤ 1) ∧ (ms = [] → es = List.replicate X.length 0) := by
  unfold ensemble_detection at h
  rw [Option.map_eq_some'] at h
  obtain ⟨ms1, hms1, heq⟩ := h
  dsimp only at heq
  injection heq with hes hms
  have hbd : ∀ p ∈ ms1 ++ statPart d X ++ madPart d X, ∀ s ∈ p.2, 0 ≤ s ∧ s ≤ 1 := by
    intro p hp
    simp only [List.mem_append] at hp
    rcases hp with (hp | hp) | hp
    · exact isoPart?_bounded d X ms1 hms1 p hp
    · exact statPart_bounded d X p hp
    · exact madPart_bounded d X p hp
  constructor
  · rw [← hes]
    exact ensembleCombine_mem_unit _ _ hbd
  · intro hnil
    rw [← hms] at hnil
    rw [← hes, hnil, ensembleCombine_nil]

/-- Witness for C1 at a fully untrained detector on a two-sample batch:
the returned ensemble score is all-zero and inside [0,1]. -/
theorem C1_witness :
    (∀ s ∈ List.replicate 2 (0 : ℚ), 0 ≤ s ∧ s ≤ 1) ∧
      (([] : List (String × List ℚ)) = [] →
        List.replicate 2 (0 : ℚ) = List.replicate ([[1], [2]] : List (List ℚ)).length 0) :=
  C1_ensemble_scores_unit_interval ⟨1/10, none, none⟩ [[1], [2]]
    (List.replicate 2 0) []
    (by simp [ensemble_detection, isoPart?, statPart, madPart, detect_statistical,
      detect_mad, ensembleCombine, List.replicate])

end AnomalyDetection

namespace AnomalyDetection

/-- C4: `classify_anomaly` is a total function of its score, monotone in
the NORMAL < WARNING < CRITICAL order for ordered thresholds, and on the
default thresholds 0.9/0.7 maps 0.95 to CRITICAL, 0.75 to WARNING and
0.3 to NORMAL. -/
theorem C4_classify_anomaly_monotone (c w s t : ℚ) (_hcw : w ≤ c) (hst : s < t) :
    sevRank (classify_anomaly s c w).1 ≤ sevRank (classify_anomaly t c w).1 ∧
    (classify_anomaly (95/100) (9/10) (7/10)).1 = "CRITICAL" ∧
    (classify_anomaly (3/4) (9/10) (7/10)).1 = "WARNING" ∧
    (classify_anomaly (3/10) (9/10) (7/10)).1 = "NORMAL" := by
  refine ⟨?_, of_decide_eq_true (by with_unfolding_all rfl),
    of_decide_eq_true (by with_unfolding_all rfl),
    of_decide_eq_true (by with_unfolding_all rfl)⟩
  unfold classify_anomaly
  split_ifs <;> simp [sevRank] <;> linarith

/-- Witness for C4 at the default thresholds with scores 0.3 < 0.75. -/
theorem C4_witness :
    sevRank (classify_anomaly (3/10) (9/10) (7/10)).1 ≤
      sevRank (classify_anomaly (3/4) (9/10) (7/10)).1 ∧
    (classify_anomaly (95/100) (9/10) (7/10)).1 = "CRITICAL" ∧
    (classify_anomaly (3/4) (9/10) (7/10)).1 = "WARNING" ∧
    (classify_anomaly (3/10) (9/10) (7/10)).1 = "NORMAL" :=
  C4_classify_anomaly_monotone (9/10) (7/10) (3/10) (3/4) (by norm_num) (by norm_num)

/-- C9 counterexample: the configuration critical_threshold = 0.5 <
warning_threshold = 0.7 is NOT rejected anywhere — `AnomalyDetector.__init__`
takes no thresholds and performs no validation, and `classify_anomaly`
accepts the inverted pair, silently labelling the score 0.6 (below the
warning threshold) as CRITICAL. -/
theorem C9_counterexample_no_validation :
    (classify_anomaly (3/5) (1/2) (7/10)).1 = "CRITICAL" :=
  of_decide_eq_true (by with_unfolding_all rfl)

/-- C9 amended: no construction-time validation exists; thresholds are
per-call arguments of `classify_anomaly`, which accepts any pair
(including critical_threshold < warning_threshold) and classifies every
score at or above the critical threshold as CRITICAL because that branch
is checked first. -/
theorem C9_amended_inverted_thresholds_accepted (s c w : ℚ) (h : c ≤ s) :
    (classify_anomaly s c w).1 = "CRITICAL" := by
  unfold classify_anomaly
  rw [if_pos h]

/-- Witness for the amended C9. -/
theorem C9_amended_witness :
    (classify_anomaly (4/5) (1/2) (7/10)).1 = "CRITICAL" :=
  C9_amended_inverted_thresholds_accepted (4/5) (1/2) (7/10) (by norm_num)

/-- C7: calling a detector before fitting returns an empty result
rather than failing: with no fitted baseline and no trained model, all
three detect operations yield empty output for every batch. -/
theorem C7_untrained_detectors_return_empty (cr : ℚ) (X : List (List ℚ)) :
    detect_statistical ⟨cr, none, none⟩ X = [] ∧
    detect_mad ⟨cr, none, none⟩ X = [] ∧
    detect_isolation_forest ⟨cr, none, none⟩ X = ([], []) :=
  ⟨rfl, rfl, rfl⟩

end AnomalyDetection

namespace DeepLearning

theorem classify_confidence (features : List (String × ℚ)) (t : ℚ) :
    (classify features t).2.1 = min 1 ((bestMatchOf features).2.1 / 100) := by
  unfold classify
  dsimp only
  split <;> rfl

/-- C3: whenever the computed confidence is below the configured
threshold, `classify` returns the label "Unknown Attack" with that
confidence, and never a specific attack name from the signature
table. -/
theorem C3_low_confidence_unknown (features : List (String × ℚ)) (threshold : ℚ)
    (h : (classify features threshold).2.1 < threshold) :
    (classify features threshold).1 = some "Unknown Attack" ∧
    (classify features threshold).2.1 =
      min 1 ((bestMatchOf features).2.1 / 100) ∧
    ∀ p ∈ attack_signatures, (classify features threshold).1 ≠ some p.1 := by
  rw [classify_confidence] at h
  have hlab : (classify features threshold).1 = some "Unknown Attack" := by
    unfold classify
    dsimp only
    rw [if_pos h]
  refine ⟨hlab, classify_confidence features threshold, ?_⟩
  intro p hp
  rw [hlab]
  have hne : ∀ q ∈ attack_signatures, ¬ ("Unknown Attack" = q.1) :=
    of_decide_eq_true (by with_unfolding_all rfl)
  intro hcontra
  exact hne p hp (Option.some.inj hcontra)

set_option maxRecDepth 2000 in
/-- Witness for C3: the empty feature map scores 0 < 0.6, so the label
is "Unknown Attack". -/
theorem C3_witness :
    ((classify [] (6/10)).2.1 < 6/10) ∧
      (classify [] (6/10)).1 = some "Unknown Attack" :=
  ⟨of_decide_eq_true (by with_unfolding_all rfl),
   (C3_low_confidence_unknown [] (6/10)
     (of_decide_eq_true (by with_unfolding_all rfl))).1⟩

end DeepLearning

namespace DeepLearning

theorem matchStep_eq (features : List (String × ℚ)) (acc : ℚ × ℕ)
    (sig : String × String) :
    matchStep features acc sig =
      (acc.1 + (sigContribution features sig).1,
       acc.2 + (sigContribution features sig).2) := by
  unfold matchStep sigContribution
  cases getFeature features sig.1 with
  | none => simp
  | some v =>
    dsimp only
    split_ifs <;> simp [Prod.ext_iff]

theorem matchScoreParts_fold (features : List (String × ℚ)) :
    ∀ (sigs : List (String × String)) (a : ℚ) (b : ℕ),
      sigs.foldl (matchStep features) (a, b) =
        (a + (sigs.map (fun s => (sigContribution features s).1)).sum,
         b + (sigs.map (fun s => (sigContribution features s).2)).sum) := by
  intro sigs
  induction sigs with
  | nil => intro a b; simp
  | cons s rest ih =>
    intro a b
    simp only [List.foldl_cons, List.map_cons, List.sum_cons]
    rw [matchStep_eq, ih]
    simp only [Prod.mk.injEq]
    exact ⟨by ring, by omega⟩

theorem matchScoreParts_eq_sum (features : List (String × ℚ))
    (signatures : List (String × String)) :
    matchScoreParts features signatures =
      ((signatures.map (fun s => (sigContribution features s).1)).sum,
       (signatures.map (fun s => (sigContribution features s).2)).sum) := by
  unfold matchScoreParts
  rw [matchScoreParts_fold]
  simp

theorem calculate_eq_specMatchScore (features : List (String × ℚ))
    (signatures : List (String × String)) :
    calculate_match_score features signatures =
      specMatchScore features signatures := by
  unfold calculate_match_score specMatchScore
  rw [matchScoreParts_eq_sum]

theorem bestFold_score (features : List (String × ℚ)) :
    ∀ (l : List (String × List (String × String)))
      (acc : Option String × ℚ × List (String × ℚ)),
      (l.foldl (bestStep features) acc).2.1 =
        (l.map (fun a => calculate_match_score features a.2)).foldl max acc.2.1 := by
  intro l
  induction l with
  | nil => intro acc; rfl
  | cons a rest ih =>
    intro acc
    simp only [List.foldl_cons, List.map_cons]
    rw [ih]
    congr 1
    unfold bestStep
    dsimp only
    split
    · next hgt => exact (max_eq_right (le_of_lt hgt)).symm
    · next hng => exact (max_eq_left (not_lt.1 hng)).symm

theorem bestMatchOf_score (features : List (String × ℚ)) :
    (bestMatchOf features).2.1 =
      (attack_signatures.map (fun a => calculate_match_score features a.2)).foldl
        max 0 := by
  unfold bestMatchOf
  rw [bestFold_score]

set_option maxRecDepth 2000 in
/-- C2: the match score of `_calculate_match_score` equals the spec's
formula (sum of +20 per `high` feature above 50, +30 per `very_high`
feature above 80, +20 per `low` feature below 20, all times
`1 + 0.1 × matches` when at least one matched); the confidence returned
by `classify` is the maximum score over all attack types divided by 100
and capped at 1; and for the feature map `syn_count = 90,
unique_dst_ports = 70` the Port Scan signature scores 40 points
pre-bonus from 2 matches, 48 after the ×1.2 bonus, and is selected as
the best match. -/
theorem C2_match_score_formula :
    (∀ (features : List (String × ℚ)) (signatures : List (String × String)),
      calculate_match_score features signatures = specMatchScore features signatures) ∧
    (∀ (features : List (String × ℚ)) (t : ℚ),
      (classify features t).2.1 =
        min 1 (((attack_signatures.map
          (fun a => calculate_match_score features a.2)).foldl max 0) / 100)) ∧
    matchScoreParts [("syn_count", 90), ("unique_dst_ports", 70)]
      [("unique_dst_ports", "high"), ("packet_rate", "high"), ("syn_count", "high")] =
      (40, 2) ∧
    calculate_match_score [("syn_count", 90), ("unique_dst_ports", 70)]
      [("unique_dst_ports", "high"), ("packet_rate", "high"), ("syn_count", "high")] =
      48 ∧
    (bestMatchOf [("syn_count", 90), ("unique_dst_ports", 70)]).1 = some "Port Scan" ∧
    (bestMatchOf [("syn_count", 90), ("unique_dst_ports", 70)]).2.1 = 48 := by
  refine ⟨calculate_eq_specMatchScore, ?_,
    of_decide_eq_true (by with_unfolding_all rfl),
    of_decide_eq_true (by with_unfolding_all rfl),
    of_decide_eq_true (by with_unfolding_all rfl),
    of_decide_eq_true (by with_unfolding_all rfl)⟩
  intro features t
  rw [classify_confidence, bestMatchOf_score]

end DeepLearning

namespace MultiAgent

set_option maxRecDepth 2000 in
/-- C10: the Detection agent's thresholds are strict: given precomputed
scores, a detection `scored s i sev` is emitted iff score `s` sits at
index `i` and `s > 0.7` strictly (exactly 0.7 yields nothing), with
severity CRITICAL iff `s > 0.9` strictly, else WARNING — in contrast to
the severity classifier's inclusive `≥` at the same cutoffs, which maps
0.7 to WARNING and 0.9 to CRITICAL. -/
theorem C10_detection_strict_thresholds :
    (∀ (scores : List ℚ) (i : ℕ) (s : ℚ) (sev : String),
      Detection.scored s i sev ∈ scoredDetections scores ↔
        scores[i]? = some s ∧ s > 7/10 ∧
          sev = (if s > 9/10 then "CRITICAL" else "WARNING")) ∧
    scoredDetections [7/10] = [] ∧
    scoredDetections [9/10] = [Detection.scored (9/10) 0 "WARNING"] ∧
    (AnomalyDetection.classify_anomaly (7/10) (9/10) (7/10)).1 = "WARNING" ∧
    (AnomalyDetection.classify_anomaly (9/10) (9/10) (7/10)).1 = "CRITICAL" := by
  refine ⟨?_, of_decide_eq_true (by with_unfolding_all rfl),
    of_decide_eq_true (by with_unfolding_all rfl),
    of_decide_eq_true (by with_unfolding_all rfl),
    of_decide_eq_true (by with_unfolding_all rfl)⟩
  intro scores i s sev
  unfold scoredDetections
  rw [List.mem_filterMap]
  constructor
  · rintro ⟨⟨j, v⟩, hmem, hf⟩
    dsimp only at hf
    split at hf
    · next hv =>
      rw [Option.some.injEq] at hf
      obtain ⟨rfl, rfl, rfl⟩ := Detection.scored.inj hf
      exact ⟨List.mk_mem_enum_iff_getElem?.1 hmem, hv, rfl⟩
    · exact absurd hf (by simp)
  · rintro ⟨hget, hs, rfl⟩
    refine ⟨(i, s), List.mk_mem_enum_iff_getElem?.2 hget, ?_⟩
    dsimp only
    rw [if_pos hs]

end MultiAgent

namespace MultiAgent

/-- C5: when the Detection stage produces an empty detection list, the
run short-circuits: `process_threat` returns `threat_detected = false`
with status NORMAL and no response, and only the Monitoring and
Detection messages are appended — Classification, Explanation and
Response produce no messages. -/
theorem C5_empty_detections_short_circuit (mas : MAS) (packets : List Packet)
    (eventCount : ℕ) (anomaly_scores : Option (List ℚ)) (pstd : ℚ)
    (h : computeDetections packets anomaly_scores pstd = []) :
    (process_threat mas packets eventCount anomaly_scores pstd).1.threat_detected = false ∧
    (process_threat mas packets eventCount anomaly_scores pstd).1.status = "NORMAL" ∧
    (process_threat mas packets eventCount anomaly_scores pstd).1.response = none ∧
    (process_threat mas packets eventCount anomaly_scores pstd).2.message_queue =
      mas.message_queue ++
        [⟨"monitor-agent", "detect-agent", "raw_data",
           .rawData packets.length eventCount⟩,
         ⟨"detect-agent", "classify-agent", "anomalies_detected",
           .anomaliesDetected [] 0⟩] ∧
    ∀ m ∈ (process_threat mas packets eventCount anomaly_scores
        pstd).2.message_queue.drop mas.message_queue.length,
      m.sender = "monitor-agent" ∨ m.sender = "detect-agent" := by
  have hrun : process_threat mas packets eventCount anomaly_scores pstd =
      (⟨"NORMAL", false, some "No threats detected", none, none, none⟩,
       ⟨mas.message_queue ++
         [⟨"monitor-agent", "detect-agent", "raw_data",
            .rawData packets.length eventCount⟩,
          ⟨"detect-agent", "classify-agent", "anomalies_detected",
            .anomaliesDetected [] 0⟩]⟩) := by
    unfold process_threat
    rw [h]
    simp
  rw [hrun]
  refine ⟨rfl, rfl, rfl, rfl, ?_⟩
  intro m hm
  dsimp only at hm
  rw [List.drop_left] at hm
  simp only [List.mem_cons, List.mem_singleton] at hm
  rcases hm with rfl | rfl | hm
  · left; rfl
  · right; rfl
  · simp at hm

set_option maxRecDepth 2000 in
/-- Witness for C5: one below-threshold score yields no detections and
a short-circuited NORMAL run. -/
theorem C5_witness :
    (process_threat ⟨[]⟩ [] 0 (some [1/2]) 0).1.threat_detected = false ∧
    (process_threat ⟨[]⟩ [] 0 (some [1/2]) 0).1.status = "NORMAL" ∧
    (process_threat ⟨[]⟩ [] 0 (some [1/2]) 0).1.response = none ∧
    (process_threat ⟨[]⟩ [] 0 (some [1/2]) 0).2.message_queue =
      (⟨[]⟩ : MAS).message_queue ++
        [⟨"monitor-agent", "detect-agent", "raw_data", .rawData 0 0⟩,
         ⟨"detect-agent", "classify-agent", "anomalies_detected",
           .anomaliesDetected [] 0⟩] ∧
    ∀ m ∈ (process_threat ⟨[]⟩ [] 0 (some [1/2])
        0).2.message_queue.drop (⟨[]⟩ : MAS).message_queue.length,
      m.sender = "monitor-agent" ∨ m.sender = "detect-agent" :=
  C5_empty_detections_short_circuit ⟨[]⟩ [] 0 (some [1/2]) 0
    (of_decide_eq_true (by with_unfolding_all rfl))

set_option maxRecDepth 2000 in
/-- C8 counterexample: the orchestrator RETAINS messages after a run.
Starting from an empty queue, one threat-producing run leaves 4 messages
in `message_queue` (not zero), and an identical second run reports
`pipeline_messages = 8`, not 4 — the count accumulates across
`process_threat` invocations. -/
theorem C8_counterexample_messages_retained :
    (process_threat ⟨[]⟩ [] 0 (some [1]) 0).2.message_queue.length = 4 ∧
    (process_threat (process_threat ⟨[]⟩ [] 0 (some [1]) 0).2 [] 0
        (some [1]) 0).1.pipeline_messages = some 8 ∧
    (8 : ℕ) ≠ 4 :=
  ⟨of_decide_eq_true (by with_unfolding_all rfl),
   of_decide_eq_true (by with_unfolding_all rfl), by omega⟩

/-- C8 amended: `process_threat` appends its run's messages to
`message_queue` without ever clearing it, so messages are retained
across runs; a no-threat run grows the queue by 2 and reports no count,
a threat run grows it by 4 and reports the CUMULATIVE queue length
(previous messages + this run's 4), not just this run's messages. -/
theorem C8_amended_queue_accumulates (mas : MAS) (packets : List Packet)
    (eventCount : ℕ) (anomaly_scores : Option (List ℚ)) (pstd : ℚ) :
    (computeDetections packets anomaly_scores pstd = [] →
      (process_threat mas packets eventCount anomaly_scores
        pstd).2.message_queue.length = mas.message_queue.length + 2 ∧
      (process_threat mas packets eventCount anomaly_scores
        pstd).1.pipeline_messages = none) ∧
    (computeDetections packets anomaly_scores pstd ≠ [] →
      (process_threat mas packets eventCount anomaly_scores
        pstd).2.message_queue.length = mas.message_queue.length + 4 ∧
      (process_threat mas packets eventCount anomaly_scores
        pstd).1.pipeline_messages = some (mas.message_queue.length + 4)) := by
  constructor
  · intro h
    unfold process_threat
    rw [h]
    simp
  · intro h
    unfold process_threat
    rw [if_neg h]
    simp [List.length_append]

set_option maxRecDepth 2000 in
/-- Witness for the amended C8: a threat run from an empty queue leaves
4 messages and reports 4. -/
theorem C8_amended_witness :
    (process_threat ⟨[]⟩ [] 0 (some [1]) 0).2.message_queue.length =
      (⟨[]⟩ : MAS).message_queue.length + 4 ∧
    (process_threat ⟨[]⟩ [] 0 (some [1]) 0).1.pipeline_messages =
      some ((⟨[]⟩ : MAS).message_queue.length + 4) :=
  (C8_amended_queue_accumulates ⟨[]⟩ [] 0 (some [1]) 0).2
    (of_decide_eq_true (by with_unfolding_all rfl))

end MultiAgent

namespace AnomalyDetection

theorem eps_pos : 0 < eps := by norm_num [eps]

theorem getD_replicate_self (n i : ℕ) (c : ℚ) (h : i < n) :
    (List.replicate n c).getD i 0 = c := by
  rw [List.getD_eq_getElem _ _ (by simpa using h), List.getElem_replicate]

theorem zipWith_congr_mem {α β γ : Type} (f g : α → β → γ) :
    ∀ (l1 : List α) (l2 : List β), (∀ a ∈ l1, ∀ b ∈ l2, f a b = g a b) →
      List.zipWith f l1 l2 = List.zipWith g l1 l2 := by
  intro l1
  induction l1 with
  | nil => simp
  | cons a t ih =>
    intro l2 h
    cases l2 with
    | nil => simp
    | cons b t2 =>
      simp only [List.zipWith_cons_cons]
      rw [h a (by simp) b (by simp),
        ih t2 (fun x hx y hy => h x (by simp [hx]) y (by simp [hy]))]

theorem npMeanL_replicate (n : ℕ) (c : ℚ) (hn : 0 < n) :
    npMeanL (List.replicate n c) = c := by
  unfold npMeanL
  rw [List.sum_replicate, List.length_replicate, nsmul_eq_mul]
  exact mul_div_cancel_left₀ c (by exact_mod_cast hn.ne')

theorem insertionSort_replicate (n : ℕ) (c : ℚ) :
    List.insertionSort (fun a b => a ≤ b) (List.replicate n c) =
      List.replicate n c := by
  have hp := List.perm_insertionSort (fun a b : ℚ => a ≤ b) (List.replicate n c)
  refine List.eq_replicate_iff.2 ⟨by rw [hp.length_eq, List.length_replicate], ?_⟩
  intro b hb
  exact List.eq_of_mem_replicate (hp.mem_iff.1 hb)

theorem npMedian_replicate (n : ℕ) (c : ℚ) (hn : 0 < n) :
    npMedian (List.replicate n c) = c := by
  unfold npMedian
  rw [insertionSort_replicate]
  simp only [List.length_replicate]
  rw [if_neg (by omega)]
  by_cases h2 : n % 2 = 1
  · rw [if_pos h2, getD_replicate_self n (n / 2) c (by omega)]
  · rw [if_neg h2, getD_replicate_self n (n / 2 - 1) c (by omega),
      getD_replicate_self n (n / 2) c (by omega)]
    ring

theorem colVals_replicate (n : ℕ) (c : ℚ) :
    colVals (List.replicate n [c]) 0 = List.replicate n c := by
  unfold colVals
  rw [List.map_replicate]
  rfl

theorem numFeatures_replicate (n : ℕ) (hn : 0 < n) (r : List ℚ) :
    numFeatures (List.replicate n r) = r.length := by
  unfold numFeatures
  cases n with
  | zero => omega
  | succ m => rw [List.replicate_succ]; rfl

theorem fitMean_length (X : List (List ℚ)) :
    (fitMean X).length = numFeatures X := by
  unfold fitMean; simp

theorem fitVar_length (X : List (List ℚ)) :
    (fitVar X).length = numFeatures X := by
  unfold fitVar; simp

theorem fitMedian_length (X : List (List ℚ)) :
    (fitMedian X).length = numFeatures X := by
  unfold fitMedian; simp

theorem fitMad_length (X : List (List ℚ)) :
    (fitMad X).length = numFeatures X := by
  unfold fitMad; simp

theorem fitMean_replicate (n : ℕ) (c : ℚ) (hn : 0 < n) :
    fitMean (List.replicate n [c]) = [c] := by
  unfold fitMean
  rw [numFeatures_replicate n hn]
  rw [show List.range ([c].length) = [0] by simp [List.range_succ]]
  simp only [List.map_cons, List.map_nil]
  rw [colVals_replicate, npMeanL_replicate n c hn]

theorem fitVar_replicate (n : ℕ) (c : ℚ) (hn : 0 < n) :
    fitVar (List.replicate n [c]) = [0] := by
  unfold fitVar
  rw [numFeatures_replicate n hn]
  rw [show List.range ([c].length) = [0] by simp [List.range_succ]]
  simp only [List.map_cons, List.map_nil]
  rw [colVals_replicate, npMeanL_replicate n c hn]
  rw [show (List.replicate n c).map (fun x => (x - c) ^ 2) = List.replicate n 0 by
    rw [List.map_replicate]; simp]
  rw [show npMeanL (List.replicate n 0) = 0 by
    unfold npMeanL; rw [List.sum_replicate]; simp]

theorem fitMedian_replicate (n : ℕ) (c : ℚ) (hn : 0 < n) :
    fitMedian (List.replicate n [c]) = [c] := by
  unfold fitMedian
  rw [numFeatures_replicate n hn]
  rw [show List.range ([c].length) = [0] by simp [List.range_succ]]
  simp only [List.map_cons, List.map_nil]
  rw [colVals_replicate, npMedian_replicate n c hn]

theorem fitMad_replicate (n : ℕ) (c : ℚ) (hn : 0 < n) :
    fitMad (List.replicate n [c]) = [0] := by
  unfold fitMad
  rw [numFeatures_replicate n hn]
  rw [show List.range ([c].length) = [0] by simp [List.range_succ]]
  simp only [List.map_cons, List.map_nil]
  rw [colVals_replicate, npMedian_replicate n c hn]
  rw [show (List.replicate n c).map (fun x => |x - c|) = List.replicate n 0 by
    rw [List.map_replicate]; simp]
  rw [npMedian_replicate n 0 hn]

theorem fitted_std_nonneg (train : List (List ℚ)) (b : BaselineStats)
    (hb : IsFittedBaseline train b) : ∀ s ∈ b.std, 0 ≤ s := by
  intro s hs
  obtain ⟨j, hj, rfl⟩ := List.mem_iff_getElem.1 hs
  have h := (hb.2.2.2.2 j hj).1
  rwa [List.getD_eq_getElem _ _ hj] at h

/-- C6: on a fitted baseline, the statistical detector's per-sample
score is the maximum over features of |x − mean| / (std + ε) and the
MAD detector's is the maximum over features of |x − median| / (MAD + ε),
with ε = 1e-8 > 0; consequently, when the baseline was fitted from a
single-feature batch of n > 0 identical samples [c] (so the fitted std
and MAD are exactly 0), every returned score is the finite rational
|x − c| / ε — no NaN or infinity can arise since the denominator is the
positive constant ε. -/
theorem C6_detector_formulas (cr : ℚ) (train X : List (List ℚ)) (b : BaselineStats)
    (hb : IsFittedBaseline train b)
    (hrow : ∀ row ∈ X, row.length = b.mean.length)
    (hnz : X = [] ∨ 0 < b.mean.length) :
    0 < eps ∧
    detect_statistical ⟨cr, none, some b⟩ X =
      X.map (fun row =>
        npMaxD (List.zipWith (fun p x => |x - p.1| / (p.2 + eps))
          (b.mean.zip b.std) row)) ∧
    detect_mad ⟨cr, none, some b⟩ X =
      X.map (fun row =>
        npMaxD (List.zipWith (fun p x => |x - p.1| / (p.2 + eps))
          (b.median.zip b.mad) row)) ∧
    (∀ (n : ℕ) (c : ℚ), 0 < n → train = List.replicate n [c] →
      b.std = [0] ∧ b.mad = [0] ∧
      detect_statistical ⟨cr, none, some b⟩ X =
        X.map (fun row => |row.getD 0 0 - c| / eps) ∧
      detect_mad ⟨cr, none, some b⟩ X =
        X.map (fun row => |row.getD 0 0 - c| / eps)) := by
  have hlen_ms : b.std.length = b.mean.length := by
    rw [hb.2.2.2.1, hb.1, fitVar_length, fitMean_length]
  have hlen_md : b.mad.length = b.median.length := by
    rw [hb.2.2.1, hb.2.1, fitMad_length, fitMedian_length]
  have hmm : b.median.length = b.mean.length := by
    rw [hb.2.1, hb.1, fitMedian_length, fitMean_length]
  have hrow_med : ∀ row ∈ X, row.length = b.median.length := by
    intro row hr; rw [hmm]; exact hrow row hr
  have hnz_med : X = [] ∨ 0 < b.median.length := by
    rcases hnz with h | h
    · exact Or.inl h
    · right; rwa [hmm]
  have hstat_def : detect_statistical ⟨cr, none, some b⟩ X =
      X.map (fun row =>
        npMaxD (List.zipWith (fun p x => |(x - p.1) / (p.2 + eps)|)
          (b.mean.zip b.std) row)) := by
    simp only [detect_statistical]
    rw [if_pos ⟨hlen_ms, hrow, hnz⟩]
  have hstat : detect_statistical ⟨cr, none, some b⟩ X =
      X.map (fun row =>
        npMaxD (List.zipWith (fun p x => |x - p.1| / (p.2 + eps))
          (b.mean.zip b.std) row)) := by
    rw [hstat_def]
    refine List.map_congr_left ?_
    intro row _
    refine congrArg npMaxD (zipWith_congr_mem _ _ _ _ ?_)
    intro p hp x _
    have hp2 : 0 ≤ p.2 := fitted_std_nonneg train b hb p.2 (List.of_mem_zip hp).2
    have hpos : 0 < p.2 + eps := by linarith [eps_pos]
    rw [abs_div, abs_of_pos hpos]
  have hmad : detect_mad ⟨cr, none, some b⟩ X =
      X.map (fun row =>
        npMaxD (List.zipWith (fun p x => |x - p.1| / (p.2 + eps))
          (b.median.zip b.mad) row)) := by
    simp only [detect_mad]
    rw [if_pos ⟨hlen_md, hrow_med, hnz_med⟩]
  refine ⟨eps_pos, hstat, hmad, ?_⟩
  intro n c hn htrain
  subst htrain
  have hmean : b.mean = [c] := by rw [hb.1, fitMean_replicate n c hn]
  have hmed : b.median = [c] := by rw [hb.2.1, fitMedian_replicate n c hn]
  have hmad0 : b.mad = [0] := by rw [hb.2.2.1, fitMad_replicate n c hn]
  have hstd0 : b.std = [0] := by
    have hlen1 : b.std.length = 1 := by
      rw [hb.2.2.2.1, fitVar_replicate n c hn]; rfl
    have hval := (hb.2.2.2.2 0 (by omega)).2
    rw [fitVar_replicate n c hn] at hval
    have h0 : b.std.getD 0 0 = 0 := sq_eq_zero_iff.1 (by simpa using hval)
    cases hs : b.std with
    | nil => rw [hs] at hlen1; simp at hlen1
    | cons s0 rest =>
      rw [hs] at hlen1 h0
      cases rest with
      | nil =>
        simp only [List.getD_cons_zero] at h0
        rw [h0]
      | cons _ _ => simp at hlen1
  have hrow1 : ∀ row ∈ X, row.length = 1 := by
    intro row hr
    have := hrow row hr
    rwa [hmean] at this
  have hsingle :
      X.map (fun row =>
        npMaxD (List.zipWith (fun p x => |x - p.1| / (p.2 + eps))
          ([c].zip [(0 : ℚ)]) row)) =
      X.map (fun row => |row.getD 0 0 - c| / eps) := by
    refine List.map_congr_left ?_
    intro row hr
    have h1 := hrow1 row hr
    cases row with
    | nil => simp at h1
    | cons x rest =>
      cases rest with
      | nil => simp [npMaxD]
      | cons _ _ => simp at h1
  refine ⟨hstd0, hmad0, ?_, ?_⟩
  · rw [hstat, hmean, hstd0]
    exact hsingle
  · rw [hmad, hmed, hmad0]
    exact hsingle

end AnomalyDetection

namespace AnomalyDetection

set_option maxRecDepth 2000 in
/-- Witness for C6: baseline fitted from two identical single-feature
samples [3] (std = MAD = 0); on the batch [[4]] both detectors return
the finite score |4 − 3| / ε. -/
theorem C6_witness :
    detect_statistical ⟨1/10, none, some ⟨[3], [0], [3], [0]⟩⟩ [[4]] =
      ([[4]] : List (List ℚ)).map (fun row => |row.getD 0 0 - 3| / eps) ∧
    detect_mad ⟨1/10, none, some ⟨[3], [0], [3], [0]⟩⟩ [[4]] =
      ([[4]] : List (List ℚ)).map (fun row => |row.getD 0 0 - 3| / eps) :=
  let h := C6_detector_formulas (1/10) [[3], [3]] [[4]] ⟨[3], [0], [3], [0]⟩
    (of_decide_eq_true (by with_unfolding_all rfl))
    (of_decide_eq_true (by with_unfolding_all rfl))
    (Or.inr (by norm_num))
  ⟨(h.2.2.2 2 3 (by norm_num) rfl).2.2.1, (h.2.2.2 2 3 (by norm_num) rfl).2.2.2⟩

end AnomalyDetection
